import Mathlib

/-!
Shallow embedding of `VoogtNutrientAlgorithm.calculate_drip_recipe` from
`src/App.py`: a four-stage numeric pipeline (feedback adjustment, ionic
balancing, EC normalization, water compensation) over seven tracked
macro-nutrient ions.  Python floats are modelled as rationals; Python dicts
with `.get(el, 0.0)` defaulting are modelled as `Ion → Option ℚ` read
through `getv`.  Warning strings are modelled as structured values carrying
the same discriminating information (kind and ion) in the same emission
order as the source.
-/

namespace Voogt

/-- The seven tracked macro-nutrient ions (the `elements` list of
`calculate_drip_recipe`). -/
inductive Ion
  | NO3
  | H2PO4
  | SO4
  | K
  | Ca
  | Mg
  | NH4
deriving DecidableEq, Repr

open Ion

/-- The `elements` list of `calculate_drip_recipe`, in source order. -/
def elements : List Ion := [NO3, H2PO4, SO4, K, Ca, Mg, NH4]

/-- The valence table `self.valences`, restricted to the seven ions that the pipeline reads
(the three extra table entries `Na`, `Cl`, `HCO3` are never consumed). -/
def valence : Ion → ℚ
  | K => 1
  | Ca => 2
  | Mg => 2
  | NH4 => 1
  | NO3 => 1
  | SO4 => 2
  | H2PO4 => 1

/-- An input concentration dictionary: a possibly-partial ion map. -/
def Vec : Type := Ion → Option ℚ

/-- Read one ion as `dict.get(el, 0.0)`, defaulting a missing key to 0. -/
def getv (v : Vec) (el : Ion) : ℚ := (v el).getD 0

/-- Structured warnings, one constructor per warning site of the source, in
the same per-site data: `capped` is the "⚠️ Correction plafonnée" message,
`supplyCut` the "📉 Stock substrat critique" message, `balanceNO3` /
`balanceKCa` the "⚖️ Équilibrage" notes (with the added amount), and
`waterOverload` the "🚨 L'eau de source apporte déjà trop" message. -/
inductive Warning
  | capped (el : Ion)
  | supplyCut (el : Ion)
  | balanceNO3 (amount : ℚ)
  | balanceKCa (amount : ℚ)
  | waterOverload (el : Ion)
deriving DecidableEq, Repr

/-- Severity classification used by the front end: "🚨" messages render as
errors and "📉" messages as warnings; the water-overload and supply-cut
records are the critical (blocking/safety) ones. -/
def Warning.isCritical : Warning → Bool
  | .supplyCut _ => true
  | .waterOverload _ => true
  | _ => false

/-- Stage A per-ion correction term: `gap * factor`, clamped to
`±max_correction` (sign following `gap`) when its absolute value exceeds
`max_correction = target * 0.6`. -/
def correction (target analysis factor : ℚ) : ℚ :=
  let gap := target - analysis
  let maxCorr := target * (6/10)
  let ct := gap * factor
  if |ct| > maxCorr then (if gap > 0 then maxCorr else -maxCorr) else ct

/-- Stage A (feedback) output for one ion: `uptake + correction`, floored at
0 (`if base_calc < 0: base_calc = 0`). -/
def feedback (tv av uv : Vec) (factor : ℚ) (el : Ion) : ℚ :=
  let base := getv uv el + correction (getv tv el) (getv av el) factor
  if base < 0 then 0 else base

/-- Stage A warnings, in source order: for each element, a capped-correction
warning when the clamp fires, then a supply-cut warning when the base is
negative. -/
def feedbackWarn (tv av uv : Vec) (factor : ℚ) : List Warning :=
  elements.flatMap fun el =>
    let target := getv tv el
    let ct := (target - getv av el) * factor
    (if |ct| > target * (6/10) then [Warning.capped el] else []) ++
    (if getv uv el + correction target (getv av el) factor < 0 then
      [Warning.supplyCut el] else [])

/-- The `sum_cations` charge sum of the four cations `K, Ca, Mg, NH4`. -/
def cationMeq (v : Ion → ℚ) : ℚ :=
  v K * valence K + v Ca * valence Ca + v Mg * valence Mg + v NH4 * valence NH4

/-- The `sum_anions` charge sum of the three tracked anions `NO3, SO4, H2PO4`. -/
def anionMeq (v : Ion → ℚ) : ℚ :=
  v NO3 * valence NO3 + v SO4 * valence SO4 + v H2PO4 * valence H2PO4

/-- The charge `imbalance = sum_cations - sum_anions`. -/
def imbalance (v : Ion → ℚ) : ℚ := cationMeq v - anionMeq v

/-- Stage B (ionic balancing): if `imbalance > 0.1` add
`imbalance / valence[NO3]` to NO3; if `imbalance < -0.1` add half the
missing charge through K and half through Ca; otherwise leave the vector
unchanged. -/
def balance (v : Ion → ℚ) : Ion → ℚ :=
  if imbalance v > 1/10 then
    fun el => if el = NO3 then v NO3 + imbalance v / valence NO3 else v el
  else if imbalance v < -(1/10) then
    fun el =>
      if el = K then v K + |imbalance v| * (1/2) / valence K
      else if el = Ca then v Ca + |imbalance v| * (1/2) / valence Ca
      else v el
  else v

/-- Stage B warnings: one balance note when a correction is applied,
carrying the amount printed by the source message. -/
def balanceWarn (v : Ion → ℚ) : List Warning :=
  if imbalance v > 1/10 then [Warning.balanceNO3 (imbalance v / valence NO3)]
  else if imbalance v < -(1/10) then [Warning.balanceKCa |imbalance v|]
  else []

/-- The value of `current_meq` after the `if current_meq == 0: current_meq = 0.1`
division-by-zero guard of Stage C. -/
def cushionedMeq (v : Ion → ℚ) : ℚ :=
  if cationMeq v = 0 then 1/10 else cationMeq v

/-- The `estimated_ec` value `current_meq / 10.0`, floored at 0.2
(`if estimated_ec < 0.2: estimated_ec = 0.2`). -/
def estimatedEC (v : Ion → ℚ) : ℚ :=
  let e := cushionedMeq v / 10
  if e < 1/5 then 1/5 else e

/-- The multiplier `ec_ratio = target_ec / estimated_ec`. -/
def ecScale (v : Ion → ℚ) (targetEC : ℚ) : ℚ := targetEC / estimatedEC v

/-- Stage C (EC normalization) output for one ion: NH4 and H2PO4 pass
through unscaled, every other ion is multiplied by the EC ratio. -/
def finalDripOf (v : Ion → ℚ) (targetEC : ℚ) (el : Ion) : ℚ :=
  if el = NH4 ∨ el = H2PO4 then v el else v el * ecScale v targetEC

/-- Stage D (water compensation) output for one ion:
`need = final_drip - water`, floored at 0. -/
def subtractWater (drip : Ion → ℚ) (wv : Vec) (el : Ion) : ℚ :=
  let need := drip el - getv wv el
  if need < 0 then 0 else need

/-- Stage D warnings: one water-overload record per ion whose need went
negative, in element order. -/
def waterWarn (drip : Ion → ℚ) (wv : Vec) : List Warning :=
  elements.flatMap fun el =>
    if drip el - getv wv el < 0 then [Warning.waterOverload el] else []

/-- The pipeline's output: the post-feedback-and-balance vector (the final
state of the source's `adjusted_vals`), the post-EC vector
(`final_drip_conc`), the post-water vector (`fertilizer_needs`) and the
ordered warning list. -/
structure RecipeResult where
  adjusted : Ion → ℚ
  finalDrip : Ion → ℚ
  fertilizerNeed : Ion → ℚ
  warnings : List Warning

/-- The full four-stage pipeline
`VoogtNutrientAlgorithm.calculate_drip_recipe`. -/
def calculate_drip_recipe (tv av uv wv : Vec) (target_ec factor : ℚ) :
    RecipeResult :=
  let pre := feedback tv av uv factor
  let adj := balance pre
  let drip := finalDripOf adj target_ec
  { adjusted := adj
    finalDrip := drip
    fertilizerNeed := subtractWater drip wv
    warnings := feedbackWarn tv av uv factor ++ balanceWarn pre ++
      waterWarn drip wv }

/-- Round to 2 decimal places (half away from zero for the positive values
compared here), the display rounding of the result table. -/
def round2 (x : ℚ) : ℚ := (Int.floor (x * 100 + 1/2) : ℚ) / 100

/-! ### Helper lemmas -/

lemma mem_elements (el : Ion) : el ∈ elements := by
  cases el <;> simp [elements]

lemma round2_eq_of (x : ℚ) (n : ℤ) (h1 : (n : ℚ) ≤ x * 100 + 1/2)
    (h2 : x * 100 + 1/2 < n + 1) : round2 x = (n : ℚ) / 100 := by
  unfold round2
  have hfl : Int.floor (x * 100 + 1/2) = n := by
    rw [Int.floor_eq_iff]
    exact ⟨h1, h2⟩
  rw [hfl]

lemma feedback_nonneg (tv av uv : Vec) (factor : ℚ) (el : Ion) :
    0 ≤ feedback tv av uv factor el := by
  unfold feedback
  by_cases h : getv uv el + correction (getv tv el) (getv av el) factor < 0
  · simp [h]
  · simp only [if_neg h]
    linarith [not_lt.mp h]

lemma balance_ge (v : Ion → ℚ) (el : Ion) : v el ≤ balance v el := by
  unfold balance
  split_ifs with h1 h2
  · by_cases he : el = NO3
    · subst he
      simp only [if_pos rfl, if_true, eq_self_iff_true, valence]
      have h0 : (0:ℚ) < imbalance v / 1 := by
        rw [div_one]; linarith
      linarith
    · simp only [if_neg he]
      exact le_rfl
  · by_cases hk : el = K
    · subst hk
      simp only [if_pos rfl, if_true, eq_self_iff_true, valence]
      have h0 : (0:ℚ) ≤ |imbalance v| * (1/2) / 1 := by positivity
      linarith
    · by_cases hca : el = Ca
      · subst hca
        simp only [if_neg (by simp : ¬ (Ca = K)), if_pos rfl, if_true,
          eq_self_iff_true, if_false, valence]
        have h0 : (0:ℚ) ≤ |imbalance v| * (1/2) / 2 := by positivity
        linarith
      · simp only [if_neg hk, if_neg hca]
        exact le_rfl
  · exact le_rfl

lemma estimatedEC_ge (v : Ion → ℚ) : 1/5 ≤ estimatedEC v := by
  unfold estimatedEC
  dsimp only
  split_ifs with h
  · exact le_rfl
  · exact not_lt.mp h

lemma balance_imbalance_eq (v : Ion → ℚ) :
    imbalance (balance v) =
      if |imbalance v| ≤ 1/10 then imbalance v else 0 := by
  by_cases h1 : imbalance v > 1/10
  · rw [if_neg (fun hC => absurd (le_of_abs_le hC) (not_le.mpr h1))]
    unfold balance
    rw [if_pos h1]
    simp only [imbalance, cationMeq, anionMeq, valence, if_true,
      eq_self_iff_true, if_pos (rfl : (NO3:Ion) = NO3),
      if_neg (by decide : ¬ ((K:Ion) = NO3)),
      if_neg (by decide : ¬ ((Ca:Ion) = NO3)),
      if_neg (by decide : ¬ ((Mg:Ion) = NO3)),
      if_neg (by decide : ¬ ((NH4:Ion) = NO3)),
      if_neg (by decide : ¬ ((SO4:Ion) = NO3)),
      if_neg (by decide : ¬ ((H2PO4:Ion) = NO3))]
    ring
  · by_cases h2 : imbalance v < -(1/10)
    · rw [if_neg (fun hC => absurd (neg_le_of_abs_le hC) (not_le.mpr h2))]
      have habs : |imbalance v| = -(imbalance v) := abs_of_neg (by linarith)
      unfold balance
      rw [if_neg h1, if_pos h2]
      simp only [habs]
      simp only [imbalance, cationMeq, anionMeq, valence, if_true,
        eq_self_iff_true, if_pos (rfl : (K:Ion) = K),
        if_pos (rfl : (Ca:Ion) = Ca),
        if_neg (by decide : ¬ ((Ca:Ion) = K)),
        if_neg (by decide : ¬ ((Mg:Ion) = K)),
        if_neg (by decide : ¬ ((Mg:Ion) = Ca)),
        if_neg (by decide : ¬ ((NH4:Ion) = K)),
        if_neg (by decide : ¬ ((NH4:Ion) = Ca)),
        if_neg (by decide : ¬ ((NO3:Ion) = K)),
        if_neg (by decide : ¬ ((NO3:Ion) = Ca)),
        if_neg (by decide : ¬ ((SO4:Ion) = K)),
        if_neg (by decide : ¬ ((SO4:Ion) = Ca)),
        if_neg (by decide : ¬ ((H2PO4:Ion) = K)),
        if_neg (by decide : ¬ ((H2PO4:Ion) = Ca))]
      ring
    · rw [if_pos (abs_le.mpr ⟨by linarith, by linarith⟩)]
      unfold balance
      rw [if_neg h1, if_neg h2]

lemma balance_imbalance_le (v : Ion → ℚ) : |imbalance (balance v)| ≤ 1/10 := by
  rw [balance_imbalance_eq]
  split_ifs with h
  · exact h
  · simp

/-- The pipeline's `adjusted` field is the balanced feedback vector. -/
lemma adjusted_eq (tv av uv wv : Vec) (e f : ℚ) :
    (calculate_drip_recipe tv av uv wv e f).adjusted =
      balance (feedback tv av uv f) := rfl

lemma adjusted_nonneg (tv av uv wv : Vec) (e f : ℚ) (el : Ion) :
    0 ≤ (calculate_drip_recipe tv av uv wv e f).adjusted el := by
  rw [adjusted_eq]
  exact (feedback_nonneg tv av uv f el).trans (balance_ge _ el)

/-- The pipeline's warning list, laid out by stage. -/
lemma warnings_eq (tv av uv wv : Vec) (e f : ℚ) :
    (calculate_drip_recipe tv av uv wv e f).warnings =
      feedbackWarn tv av uv f ++ balanceWarn (feedback tv av uv f) ++
        waterWarn (finalDripOf (balance (feedback tv av uv f)) e) wv := rfl

lemma waterOverload_mem_waterWarn (drip : Ion → ℚ) (wv : Vec) (el : Ion) :
    Warning.waterOverload el ∈ waterWarn drip wv ↔ drip el - getv wv el < 0 := by
  unfold waterWarn
  rw [List.mem_flatMap]
  constructor
  · rintro ⟨x, hx, hm⟩
    by_cases hc : drip x - getv wv x < 0
    · rw [if_pos hc] at hm
      have h := List.mem_singleton.mp hm
      injection h with h
      rw [h]
      exact hc
    · rw [if_neg hc] at hm
      exact absurd hm (List.not_mem_nil _)
  · intro h
    exact ⟨el, mem_elements el, by rw [if_pos h]; exact List.mem_singleton_self _⟩

lemma waterOverload_not_mem_feedbackWarn (tv av uv : Vec) (f : ℚ) (el : Ion) :
    Warning.waterOverload el ∉ feedbackWarn tv av uv f := by
  simp only [feedbackWarn, List.mem_flatMap]
  rintro ⟨x, hx, hm⟩
  rw [List.mem_append] at hm
  rcases hm with hm | hm
  · by_cases hc : |(getv tv x - getv av x) * f| > getv tv x * (6/10)
    · rw [if_pos hc] at hm
      exact Warning.noConfusion (List.mem_singleton.mp hm)
    · rw [if_neg hc] at hm
      exact absurd hm (List.not_mem_nil _)
  · by_cases hc : getv uv x + correction (getv tv x) (getv av x) f < 0
    · rw [if_pos hc] at hm
      exact Warning.noConfusion (List.mem_singleton.mp hm)
    · rw [if_neg hc] at hm
      exact absurd hm (List.not_mem_nil _)

lemma waterOverload_not_mem_balanceWarn (v : Ion → ℚ) (el : Ion) :
    Warning.waterOverload el ∉ balanceWarn v := by
  unfold balanceWarn
  split_ifs <;> simp

lemma capped_mem_feedbackWarn (tv av uv : Vec) (f : ℚ) (el : Ion)
    (h : |(getv tv el - getv av el) * f| > getv tv el * (6/10)) :
    Warning.capped el ∈ feedbackWarn tv av uv f := by
  simp only [feedbackWarn, List.mem_flatMap]
  refine ⟨el, mem_elements el, ?_⟩
  rw [List.mem_append]
  left
  rw [if_pos h]
  exact List.mem_singleton_self _

/-! ### Claims -/

/-- C1: for every invocation with `targetEC > 0`, every value of the
returned `Adjusted` (post feedback+balance), `FinalDrip` and
`FertilizerNeed` vectors over the 7 tracked ions is ≥ 0, even when the
input target, analysis, uptake or water vectors contain negative values. -/
theorem C1_nonneg (tv av uv wv : Vec) (e f : ℚ) (he : 0 < e) (el : Ion) :
    0 ≤ (calculate_drip_recipe tv av uv wv e f).adjusted el ∧
    0 ≤ (calculate_drip_recipe tv av uv wv e f).finalDrip el ∧
    0 ≤ (calculate_drip_recipe tv av uv wv e f).fertilizerNeed el := by
  have hadj : ∀ i, 0 ≤ (calculate_drip_recipe tv av uv wv e f).adjusted i :=
    adjusted_nonneg tv av uv wv e f
  have hdrip : ∀ i, 0 ≤ (calculate_drip_recipe tv av uv wv e f).finalDrip i := by
    intro i
    show 0 ≤ finalDripOf (balance (feedback tv av uv f)) e i
    unfold finalDripOf
    split_ifs with h
    · exact hadj i
    · refine mul_nonneg (hadj i) ?_
      unfold ecScale
      exact div_nonneg he.le ((by norm_num : (0:ℚ) ≤ 1/5).trans (estimatedEC_ge _))
  refine ⟨hadj el, hdrip el, ?_⟩
  show 0 ≤ subtractWater (finalDripOf (balance (feedback tv av uv f)) e) wv el
  unfold subtractWater
  dsimp only
  split_ifs with h
  · exact le_rfl
  · exact not_lt.mp h

/-- C1 witness: the theorem applied at a concrete input. -/
theorem C1_nonneg_witness :
    (0:ℚ) < 1 ∧
    (0 ≤ (calculate_drip_recipe (fun _ => none) (fun _ => none) (fun _ => none)
        (fun _ => none) 1 0).adjusted NO3 ∧
     0 ≤ (calculate_drip_recipe (fun _ => none) (fun _ => none) (fun _ => none)
        (fun _ => none) 1 0).finalDrip NO3 ∧
     0 ≤ (calculate_drip_recipe (fun _ => none) (fun _ => none) (fun _ => none)
        (fun _ => none) 1 0).fertilizerNeed NO3) :=
  ⟨by norm_num, C1_nonneg _ _ _ _ 1 0 (by norm_num) NO3⟩

/-- C2: after the IonicBalancer stage the absolute difference between the
cation charge sum and the anion charge sum of the adjusted vector is at
most 0.1; moreover the correction branches restore neutrality exactly (the
residual imbalance is 0) and inside the tolerance nothing changes (the
residual imbalance is the incoming one). -/
theorem C2_neutrality (tv av uv wv : Vec) (e f : ℚ) :
    |cationMeq ((calculate_drip_recipe tv av uv wv e f).adjusted) -
      anionMeq ((calculate_drip_recipe tv av uv wv e f).adjusted)| ≤ 1/10 ∧
    cationMeq ((calculate_drip_recipe tv av uv wv e f).adjusted) -
      anionMeq ((calculate_drip_recipe tv av uv wv e f).adjusted) =
      (if |imbalance (feedback tv av uv f)| ≤ 1/10
        then imbalance (feedback tv av uv f) else 0) :=
  ⟨balance_imbalance_le (feedback tv av uv f),
   balance_imbalance_eq (feedback tv av uv f)⟩

/-- C3 counterexample: with `target = -1`, `analysis = 0`, `factor = 1` the
applied correction term is `3/5`, whose magnitude is not bounded by
`0.6 * target = -3/5`; the claim fails for negative targets. -/
theorem C3_counterexample :
    correction (-1) 0 1 = 3/5 ∧ ¬ (|correction (-1) 0 1| ≤ (6/10) * (-1 : ℚ)) := by
  have h : correction (-1) 0 1 = 3/5 := by
    unfold correction
    norm_num
  refine ⟨h, ?_⟩
  rw [h, abs_of_pos (by norm_num : (0:ℚ) < 3/5)]
  norm_num

/-- C3 amended: for every ion the applied correction term's magnitude is at
most `0.6 * |target[ion]|` (the absolute value of the target, which agrees
with the original claim whenever `target[ion] ≥ 0`). -/
theorem C3_correction_bound (target analysis factor : ℚ) :
    |correction target analysis factor| ≤ (6/10) * |target| := by
  unfold correction
  dsimp only
  split_ifs with h h2
  · rw [abs_mul, (by norm_num : |(6:ℚ)/10| = 6/10)]
    linarith [abs_nonneg target]
  · rw [abs_neg, abs_mul, (by norm_num : |(6:ℚ)/10| = 6/10)]
    linarith [abs_nonneg target]
  · have h5 := not_lt.mp h
    linarith [le_abs_self target]

/-- C4: `FinalDrip[NH4]` and `FinalDrip[H2PO4]` equal the corresponding
`Adjusted` values exactly, while every other tracked ion's `FinalDrip`
value is its `Adjusted` value multiplied by the EC ratio
`targetEC / estimatedEC`. -/
theorem C4_fixed_ions (tv av uv wv : Vec) (e f : ℚ) (el : Ion) :
    (calculate_drip_recipe tv av uv wv e f).finalDrip el =
      if el = NH4 ∨ el = H2PO4 then
        (calculate_drip_recipe tv av uv wv e f).adjusted el
      else
        (calculate_drip_recipe tv av uv wv e f).adjusted el *
          (e / estimatedEC ((calculate_drip_recipe tv av uv wv e f).adjusted)) :=
  rfl

/-- C7: in the WaterCompensator stage, per ion, the fertilizer need is the
water-subtracted drip value clamped at 0, and the critical water-overload
warning for that ion is emitted exactly when the clamp fires. -/
theorem C7_water_clamp_iff (tv av uv wv : Vec) (e f : ℚ) (el : Ion) :
    (calculate_drip_recipe tv av uv wv e f).fertilizerNeed el =
      (if (calculate_drip_recipe tv av uv wv e f).finalDrip el - getv wv el < 0
        then 0
        else (calculate_drip_recipe tv av uv wv e f).finalDrip el - getv wv el) ∧
    (Warning.waterOverload el ∈ (calculate_drip_recipe tv av uv wv e f).warnings ↔
      (calculate_drip_recipe tv av uv wv e f).finalDrip el - getv wv el < 0) ∧
    (Warning.waterOverload el).isCritical = true := by
  refine ⟨rfl, ?_, rfl⟩
  rw [warnings_eq]
  rw [List.mem_append, List.mem_append]
  constructor
  · rintro ((hm | hm) | hm)
    · exact absurd hm (waterOverload_not_mem_feedbackWarn tv av uv f el)
    · exact absurd hm (waterOverload_not_mem_balanceWarn _ el)
    · exact (waterOverload_mem_waterWarn _ wv el).mp hm
  · intro h
    exact Or.inr ((waterOverload_mem_waterWarn _ wv el).mpr h)

/-- C8: for every well-typed numeric input the pipeline is total and every
division is safe: the EC divisor is floored at 0.2 (so it is nonzero) and
the valences of the tracked ions are nonzero constants. -/
theorem C8_total (tv av uv wv : Vec) (e f : ℚ) :
    1/5 ≤ estimatedEC ((calculate_drip_recipe tv av uv wv e f).adjusted) ∧
    (∀ el, valence el ≠ 0) := by
  refine ⟨estimatedEC_ge _, ?_⟩
  intro el
  cases el <;> norm_num [valence]

/-- C9: the IonicBalancer stage is monotone non-decreasing: every ion's
value after balancing is at least its value before balancing. -/
theorem C9_balance_monotone (v : Ion → ℚ) (el : Ion) : v el ≤ balance v el :=
  balance_ge v el

/-- C10: when `target[ion] = 0` and the raw correction term
`(target - analysis) * factor` is nonzero, the applied correction is
exactly 0, the pre-balance adjusted value is `max(uptake, 0)`, and a
"correction capped" warning is emitted for that ion. -/
theorem C10_zero_target (tv av uv wv : Vec) (e f : ℚ) (el : Ion)
    (h0 : getv tv el = 0) (h1 : (getv tv el - getv av el) * f ≠ 0) :
    correction (getv tv el) (getv av el) f = 0 ∧
    feedback tv av uv f el = max (getv uv el) 0 ∧
    Warning.capped el ∈ (calculate_drip_recipe tv av uv wv e f).warnings := by
  have hcap : |(getv tv el - getv av el) * f| > getv tv el * (6/10) := by
    rw [h0] at h1 ⊢
    simpa using abs_pos.mpr h1
  have hc : correction (getv tv el) (getv av el) f = 0 := by
    unfold correction
    dsimp only
    rw [if_pos hcap, h0]
    split_ifs <;> ring
  refine ⟨hc, ?_, ?_⟩
  · unfold feedback
    dsimp only
    rw [hc, add_zero]
    rcases lt_or_le (getv uv el) 0 with h | h
    · rw [if_pos h, max_eq_right h.le]
    · rw [if_neg (not_lt.mpr h), max_eq_left h]
  · rw [warnings_eq, List.mem_append, List.mem_append]
    exact Or.inl (Or.inl (capped_mem_feedbackWarn tv av uv f el hcap))

/-- Scenario A target vector (cucumber profile of the test scenario):
NO3 12, H2PO4 1.25, SO4 1.5, K 6.5, Ca 2.75, Mg 1.5, NH4 1.0. -/
def scnA_target : Vec
  | NO3 => some 12
  | H2PO4 => some (5/4)
  | SO4 => some (3/2)
  | K => some (13/2)
  | Ca => some (11/4)
  | Mg => some (3/2)
  | NH4 => some 1

/-- Scenario A lab analysis: NO3 10, H2PO4 1.0, SO4 1.8, K 6.0, Ca 3.5,
Mg 1.2, NH4 0.5. -/
def scnA_analysis : Vec
  | NO3 => some 10
  | H2PO4 => some 1
  | SO4 => some (9/5)
  | K => some 6
  | Ca => some (7/2)
  | Mg => some (6/5)
  | NH4 => some (1/2)

/-- Scenario A uptake: NO3 13, H2PO4 1.0, SO4 1.0, K 7.0, Ca 2.0, Mg 1.0,
NH4 1.2. -/
def scnA_uptake : Vec
  | NO3 => some 13
  | H2PO4 => some 1
  | SO4 => some 1
  | K => some 7
  | Ca => some 2
  | Mg => some 1
  | NH4 => some (6/5)

/-- Scenario A raw water: SO4 0.5, Ca 0.6, Mg 0.3, all other keys 0. -/
def scnA_water : Vec
  | SO4 => some (1/2)
  | Ca => some (3/5)
  | Mg => some (3/10)
  | _ => some 0

/-- C5: on the Scenario A input with `targetEC = 2.5` and `factor = 0.5`,
the fertilizer-need vector rounds (2 decimal places) to NO3 20.80,
H2PO4 1.13, SO4 0.76, K 12.69, Ca 2.77, Mg 1.41, NH4 1.45, and the warning
list contains no critical (water-overload or supply-cut) record. -/
theorem C5_scenarioA :
    round2 ((calculate_drip_recipe scnA_target scnA_analysis scnA_uptake scnA_water
      (5/2) (1/2)).fertilizerNeed NO3) = 2080/100 ∧
    round2 ((calculate_drip_recipe scnA_target scnA_analysis scnA_uptake scnA_water
      (5/2) (1/2)).fertilizerNeed H2PO4) = 113/100 ∧
    round2 ((calculate_drip_recipe scnA_target scnA_analysis scnA_uptake scnA_water
      (5/2) (1/2)).fertilizerNeed SO4) = 76/100 ∧
    round2 ((calculate_drip_recipe scnA_target scnA_analysis scnA_uptake scnA_water
      (5/2) (1/2)).fertilizerNeed K) = 1269/100 ∧
    round2 ((calculate_drip_recipe scnA_target scnA_analysis scnA_uptake scnA_water
      (5/2) (1/2)).fertilizerNeed Ca) = 277/100 ∧
    round2 ((calculate_drip_recipe scnA_target scnA_analysis scnA_uptake scnA_water
      (5/2) (1/2)).fertilizerNeed Mg) = 141/100 ∧
    round2 ((calculate_drip_recipe scnA_target scnA_analysis scnA_uptake scnA_water
      (5/2) (1/2)).fertilizerNeed NH4) = 145/100 ∧
    ((calculate_drip_recipe scnA_target scnA_analysis scnA_uptake scnA_water
      (5/2) (1/2)).warnings.filter Warning.isCritical) = [] := by
  have hN : feedback scnA_target scnA_analysis scnA_uptake (1/2) NO3 = 14 := by
    norm_num [feedback, correction, getv, scnA_target, scnA_analysis, scnA_uptake,
      abs_of_nonneg, abs_of_nonpos]
  have hH : feedback scnA_target scnA_analysis scnA_uptake (1/2) H2PO4 = 9/8 := by
    norm_num [feedback, correction, getv, scnA_target, scnA_analysis, scnA_uptake,
      abs_of_nonneg, abs_of_nonpos]
  have hS : feedback scnA_target scnA_analysis scnA_uptake (1/2) SO4 = 17/20 := by
    norm_num [feedback, correction, getv, scnA_target, scnA_analysis, scnA_uptake,
      abs_of_nonneg, abs_of_nonpos]
  have hK : feedback scnA_target scnA_analysis scnA_uptake (1/2) K = 29/4 := by
    norm_num [feedback, correction, getv, scnA_target, scnA_analysis, scnA_uptake,
      abs_of_nonneg, abs_of_nonpos]
  have hCa : feedback scnA_target scnA_analysis scnA_uptake (1/2) Ca = 13/8 := by
    norm_num [feedback, correction, getv, scnA_target, scnA_analysis, scnA_uptake,
      abs_of_nonneg, abs_of_nonpos]
  have hMg : feedback scnA_target scnA_analysis scnA_uptake (1/2) Mg = 23/20 := by
    norm_num [feedback, correction, getv, scnA_target, scnA_analysis, scnA_uptake,
      abs_of_nonneg, abs_of_nonpos]
  have hA : feedback scnA_target scnA_analysis scnA_uptake (1/2) NH4 = 29/20 := by
    norm_num [feedback, correction, getv, scnA_target, scnA_analysis, scnA_uptake,
      abs_of_nonneg, abs_of_nonpos]
  have himb : imbalance (feedback scnA_target scnA_analysis scnA_uptake (1/2)) =
      -(103/40) := by
    simp only [imbalance, cationMeq, anionMeq, hN, hH, hS, hK, hCa, hMg, hA, valence]
    norm_num
  have hc1 : ¬ (imbalance (feedback scnA_target scnA_analysis scnA_uptake (1/2)) >
      1/10) := by
    rw [himb]; norm_num
  have hc2 : imbalance (feedback scnA_target scnA_analysis scnA_uptake (1/2)) <
      -(1/10) := by
    rw [himb]; norm_num
  have habs : |imbalance (feedback scnA_target scnA_analysis scnA_uptake (1/2))| =
      103/40 := by
    rw [himb, abs_of_nonpos (by norm_num)]
    norm_num
  have hbK : balance (feedback scnA_target scnA_analysis scnA_uptake (1/2)) K =
      683/80 := by
    unfold balance
    rw [if_neg hc1, if_pos hc2]
    simp only [if_pos (rfl : (K:Ion) = K)]
    rw [hK, habs]
    norm_num [valence]
  have hbCa : balance (feedback scnA_target scnA_analysis scnA_uptake (1/2)) Ca =
      363/160 := by
    unfold balance
    rw [if_neg hc1, if_pos hc2]
    simp only [if_neg (by decide : ¬ ((Ca:Ion) = K)), if_pos (rfl : (Ca:Ion) = Ca)]
    rw [hCa, habs]
    norm_num [valence]
  have hbN : balance (feedback scnA_target scnA_analysis scnA_uptake (1/2)) NO3 =
      14 := by
    unfold balance
    rw [if_neg hc1, if_pos hc2]
    simp only [if_neg (by decide : ¬ ((NO3:Ion) = K)),
      if_neg (by decide : ¬ ((NO3:Ion) = Ca))]
    exact hN
  have hbH : balance (feedback scnA_target scnA_analysis scnA_uptake (1/2)) H2PO4 =
      9/8 := by
    unfold balance
    rw [if_neg hc1, if_pos hc2]
    simp only [if_neg (by decide : ¬ ((H2PO4:Ion) = K)),
      if_neg (by decide : ¬ ((H2PO4:Ion) = Ca))]
    exact hH
  have hbS : balance (feedback scnA_target scnA_analysis scnA_uptake (1/2)) SO4 =
      17/20 := by
    unfold balance
    rw [if_neg hc1, if_pos hc2]
    simp only [if_neg (by decide : ¬ ((SO4:Ion) = K)),
      if_neg (by decide : ¬ ((SO4:Ion) = Ca))]
    exact hS
  have hbMg : balance (feedback scnA_target scnA_analysis scnA_uptake (1/2)) Mg =
      23/20 := by
    unfold balance
    rw [if_neg hc1, if_pos hc2]
    simp only [if_neg (by decide : ¬ ((Mg:Ion) = K)),
      if_neg (by decide : ¬ ((Mg:Ion) = Ca))]
    exact hMg
  have hbA : balance (feedback scnA_target scnA_analysis scnA_uptake (1/2)) NH4 =
      29/20 := by
    unfold balance
    rw [if_neg hc1, if_pos hc2]
    simp only [if_neg (by decide : ¬ ((NH4:Ion) = K)),
      if_neg (by decide : ¬ ((NH4:Ion) = Ca))]
    exact hA
  have hmeq : cationMeq (balance (feedback scnA_target scnA_analysis scnA_uptake
      (1/2))) = 673/40 := by
    simp only [cationMeq, hbK, hbCa, hbMg, hbA, valence]
    norm_num
  have hec : estimatedEC (balance (feedback scnA_target scnA_analysis scnA_uptake
      (1/2))) = 673/400 := by
    unfold estimatedEC cushionedMeq
    simp only [hmeq]
    norm_num
  have hscale : ecScale (balance (feedback scnA_target scnA_analysis scnA_uptake
      (1/2))) (5/2) = 1000/673 := by
    unfold ecScale
    rw [hec]
    norm_num
  have hdN : finalDripOf (balance (feedback scnA_target scnA_analysis scnA_uptake
      (1/2))) (5/2) NO3 = 14000/673 := by
    unfold finalDripOf
    rw [if_neg (by decide : ¬ ((NO3:Ion) = NH4 ∨ (NO3:Ion) = H2PO4))]
    rw [hbN, hscale]
    norm_num
  have hdH : finalDripOf (balance (feedback scnA_target scnA_analysis scnA_uptake
      (1/2))) (5/2) H2PO4 = 9/8 := by
    unfold finalDripOf
    rw [if_pos (by decide : ((H2PO4:Ion) = NH4 ∨ (H2PO4:Ion) = H2PO4))]
    exact hbH
  have hdS : finalDripOf (balance (feedback scnA_target scnA_analysis scnA_uptake
      (1/2))) (5/2) SO4 = 850/673 := by
    unfold finalDripOf
    rw [if_neg (by decide : ¬ ((SO4:Ion) = NH4 ∨ (SO4:Ion) = H2PO4))]
    rw [hbS, hscale]
    norm_num
  have hdK : finalDripOf (balance (feedback scnA_target scnA_analysis scnA_uptake
      (1/2))) (5/2) K = 17075/1346 := by
    unfold finalDripOf
    rw [if_neg (by decide : ¬ ((K:Ion) = NH4 ∨ (K:Ion) = H2PO4))]
    rw [hbK, hscale]
    norm_num
  have hdCa : finalDripOf (balance (feedback scnA_target scnA_analysis scnA_uptake
      (1/2))) (5/2) Ca = 9075/2692 := by
    unfold finalDripOf
    rw [if_neg (by decide : ¬ ((Ca:Ion) = NH4 ∨ (Ca:Ion) = H2PO4))]
    rw [hbCa, hscale]
    norm_num
  have hdMg : finalDripOf (balance (feedback scnA_target scnA_analysis scnA_uptake
      (1/2))) (5/2) Mg = 1150/673 := by
    unfold finalDripOf
    rw [if_neg (by decide : ¬ ((Mg:Ion) = NH4 ∨ (Mg:Ion) = H2PO4))]
    rw [hbMg, hscale]
    norm_num
  have hdA : finalDripOf (balance (feedback scnA_target scnA_analysis scnA_uptake
      (1/2))) (5/2) NH4 = 29/20 := by
    unfold finalDripOf
    rw [if_pos (by decide : ((NH4:Ion) = NH4 ∨ (NH4:Ion) = H2PO4))]
    exact hbA
  have hfN : (calculate_drip_recipe scnA_target scnA_analysis scnA_uptake scnA_water
      (5/2) (1/2)).fertilizerNeed NO3 = 14000/673 := by
    show subtractWater (finalDripOf (balance (feedback scnA_target scnA_analysis
      scnA_uptake (1/2))) (5/2)) scnA_water NO3 = 14000/673
    unfold subtractWater
    simp only [hdN, getv, scnA_water]
    norm_num
  have hfH : (calculate_drip_recipe scnA_target scnA_analysis scnA_uptake scnA_water
      (5/2) (1/2)).fertilizerNeed H2PO4 = 9/8 := by
    show subtractWater (finalDripOf (balance (feedback scnA_target scnA_analysis
      scnA_uptake (1/2))) (5/2)) scnA_water H2PO4 = 9/8
    unfold subtractWater
    simp only [hdH, getv, scnA_water]
    norm_num
  have hfS : (calculate_drip_recipe scnA_target scnA_analysis scnA_uptake scnA_water
      (5/2) (1/2)).fertilizerNeed SO4 = 1027/1346 := by
    show subtractWater (finalDripOf (balance (feedback scnA_target scnA_analysis
      scnA_uptake (1/2))) (5/2)) scnA_water SO4 = 1027/1346
    unfold subtractWater
    simp only [hdS, getv, scnA_water]
    norm_num
  have hfK : (calculate_drip_recipe scnA_target scnA_analysis scnA_uptake scnA_water
      (5/2) (1/2)).fertilizerNeed K = 17075/1346 := by
    show subtractWater (finalDripOf (balance (feedback scnA_target scnA_analysis
      scnA_uptake (1/2))) (5/2)) scnA_water K = 17075/1346
    unfold subtractWater
    simp only [hdK, getv, scnA_water]
    norm_num
  have hfCa : (calculate_drip_recipe scnA_target scnA_analysis scnA_uptake scnA_water
      (5/2) (1/2)).fertilizerNeed Ca = 37299/13460 := by
    show subtractWater (finalDripOf (balance (feedback scnA_target scnA_analysis
      scnA_uptake (1/2))) (5/2)) scnA_water Ca = 37299/13460
    unfold subtractWater
    simp only [hdCa, getv, scnA_water]
    norm_num
  have hfMg : (calculate_drip_recipe scnA_target scnA_analysis scnA_uptake scnA_water
      (5/2) (1/2)).fertilizerNeed Mg = 9481/6730 := by
    show subtractWater (finalDripOf (balance (feedback scnA_target scnA_analysis
      scnA_uptake (1/2))) (5/2)) scnA_water Mg = 9481/6730
    unfold subtractWater
    simp only [hdMg, getv, scnA_water]
    norm_num
  have hfA : (calculate_drip_recipe scnA_target scnA_analysis scnA_uptake scnA_water
      (5/2) (1/2)).fertilizerNeed NH4 = 29/20 := by
    show subtractWater (finalDripOf (balance (feedback scnA_target scnA_analysis
      scnA_uptake (1/2))) (5/2)) scnA_water NH4 = 29/20
    unfold subtractWater
    simp only [hdA, getv, scnA_water]
    norm_num
  have hfw : feedbackWarn scnA_target scnA_analysis scnA_uptake (1/2) = [] := by
    unfold feedbackWarn elements
    simp only [List.flatMap_cons, List.flatMap_nil]
    norm_num [getv, scnA_target, scnA_analysis, scnA_uptake, correction,
      abs_of_nonneg, abs_of_nonpos]
  have hbw : balanceWarn (feedback scnA_target scnA_analysis scnA_uptake (1/2)) =
      [Warning.balanceKCa (103/40)] := by
    unfold balanceWarn
    rw [if_neg hc1, if_pos hc2, habs]
  have hww : waterWarn (finalDripOf (balance (feedback scnA_target scnA_analysis
      scnA_uptake (1/2))) (5/2)) scnA_water = [] := by
    unfold waterWarn elements
    simp only [List.flatMap_cons, List.flatMap_nil, hdN, hdH, hdS, hdK, hdCa,
      hdMg, hdA]
    norm_num [getv, scnA_water]
  refine ⟨?_, ?_, ?_, ?_, ?_, ?_, ?_, ?_⟩
  · rw [hfN, round2_eq_of (14000/673) 2080 (by norm_num) (by norm_num)]
    norm_num
  · rw [hfH, round2_eq_of (9/8) 113 (by norm_num) (by norm_num)]
    norm_num
  · rw [hfS, round2_eq_of (1027/1346) 76 (by norm_num) (by norm_num)]
    norm_num
  · rw [hfK, round2_eq_of (17075/1346) 1269 (by norm_num) (by norm_num)]
    norm_num
  · rw [hfCa, round2_eq_of (37299/13460) 277 (by norm_num) (by norm_num)]
    norm_num
  · rw [hfMg, round2_eq_of (9481/6730) 141 (by norm_num) (by norm_num)]
    norm_num
  · rw [hfA, round2_eq_of (29/20) 145 (by norm_num) (by norm_num)]
    norm_num
  · rw [warnings_eq, hfw, hbw, hww]
    rfl

/-- C6 counterexample input: all dictionaries empty except an uptake of
0.05 mmol/L of K. -/
def lowKUptake : Vec
  | K => some (1/20)
  | _ => none

/-- C6 counterexample: on `lowKUptake` the post-balancing cation meq sum is
0.05 — strictly below 0.1 but nonzero — and the EC stage's guarded divisor
basis is 0.05 itself, not 0.1: the floor fires only at exactly 0. -/
theorem C6_counterexample :
    cationMeq ((calculate_drip_recipe (fun _ => none) (fun _ => none) lowKUptake
      (fun _ => none) 1 1).adjusted) < 1/10 ∧
    cushionedMeq ((calculate_drip_recipe (fun _ => none) (fun _ => none) lowKUptake
      (fun _ => none) 1 1).adjusted) ≠ 1/10 := by
  have hpN : feedback (fun _ => none) (fun _ => none) lowKUptake 1 NO3 = 0 := by
    norm_num [feedback, correction, getv, lowKUptake]
  have hpH : feedback (fun _ => none) (fun _ => none) lowKUptake 1 H2PO4 = 0 := by
    norm_num [feedback, correction, getv, lowKUptake]
  have hpS : feedback (fun _ => none) (fun _ => none) lowKUptake 1 SO4 = 0 := by
    norm_num [feedback, correction, getv, lowKUptake]
  have hpK : feedback (fun _ => none) (fun _ => none) lowKUptake 1 K = 1/20 := by
    norm_num [feedback, correction, getv, lowKUptake]
  have hpCa : feedback (fun _ => none) (fun _ => none) lowKUptake 1 Ca = 0 := by
    norm_num [feedback, correction, getv, lowKUptake]
  have hpMg : feedback (fun _ => none) (fun _ => none) lowKUptake 1 Mg = 0 := by
    norm_num [feedback, correction, getv, lowKUptake]
  have hpA : feedback (fun _ => none) (fun _ => none) lowKUptake 1 NH4 = 0 := by
    norm_num [feedback, correction, getv, lowKUptake]
  have himb2 : imbalance (feedback (fun _ => none) (fun _ => none) lowKUptake 1) =
      1/20 := by
    simp only [imbalance, cationMeq, anionMeq, hpN, hpH, hpS, hpK, hpCa, hpMg,
      hpA, valence]
    norm_num
  have hb_eq : balance (feedback (fun _ => none) (fun _ => none) lowKUptake 1) =
      feedback (fun _ => none) (fun _ => none) lowKUptake 1 := by
    unfold balance
    rw [if_neg (by rw [himb2]; norm_num), if_neg (by rw [himb2]; norm_num)]
  have hmeq2 : cationMeq (balance (feedback (fun _ => none) (fun _ => none)
      lowKUptake 1)) = 1/20 := by
    rw [hb_eq]
    simp only [cationMeq, hpK, hpCa, hpMg, hpA, valence]
    norm_num
  constructor
  · rw [adjusted_eq, hmeq2]
    norm_num
  · rw [adjusted_eq]
    unfold cushionedMeq
    simp only [hmeq2]
    norm_num

/-- C6 amended: the meq guard replaces the post-balancing cation meq sum by
0.1 only when that sum is exactly 0 (sums in `(0, 0.1)` are used as-is);
the divisor basis is nonetheless always positive, and division safety comes
from the separate floor keeping the estimated EC at least 0.2. -/
theorem C6_meq_guard (tv av uv wv : Vec) (e f : ℚ) :
    cushionedMeq ((calculate_drip_recipe tv av uv wv e f).adjusted) =
      (if cationMeq ((calculate_drip_recipe tv av uv wv e f).adjusted) = 0 then 1/10
       else cationMeq ((calculate_drip_recipe tv av uv wv e f).adjusted)) ∧
    0 < cushionedMeq ((calculate_drip_recipe tv av uv wv e f).adjusted) ∧
    1/5 ≤ estimatedEC ((calculate_drip_recipe tv av uv wv e f).adjusted) := by
  refine ⟨rfl, ?_, estimatedEC_ge _⟩
  have hnn : 0 ≤ cationMeq ((calculate_drip_recipe tv av uv wv e f).adjusted) := by
    have h1 := adjusted_nonneg tv av uv wv e f K
    have h2 := adjusted_nonneg tv av uv wv e f Ca
    have h3 := adjusted_nonneg tv av uv wv e f Mg
    have h4 := adjusted_nonneg tv av uv wv e f NH4
    unfold cationMeq
    simp only [valence]
    linarith
  unfold cushionedMeq
  split_ifs with h
  · norm_num
  · exact lt_of_le_of_ne hnn (Ne.symm h)

/-- C10 witness: the theorem applied at a concrete input (all targets
missing, analysis 1, factor 1, ion NO3). -/
theorem C10_zero_target_witness :
    getv (fun _ => none : Vec) NO3 = 0 ∧
    (getv (fun _ => none : Vec) NO3 - getv (fun _ => some 1 : Vec) NO3) * 1 ≠ 0 ∧
    (correction (getv (fun _ => none : Vec) NO3) (getv (fun _ => some 1 : Vec) NO3) 1 = 0 ∧
     feedback (fun _ => none) (fun _ => some 1) (fun _ => none) 1 NO3 =
       max (getv (fun _ => none : Vec) NO3) 0 ∧
     Warning.capped NO3 ∈ (calculate_drip_recipe (fun _ => none) (fun _ => some 1)
       (fun _ => none) (fun _ => none) 1 1).warnings) :=
  ⟨by norm_num [getv], by norm_num [getv],
   C10_zero_target _ _ _ _ 1 1 NO3 (by norm_num [getv]) (by norm_num [getv])⟩

end Voogt
